import Mathlib

/-!
Shallow embedding of the bulk-operation orchestrator
(`app/services/bulk_operations_service.py`) and the realtime hub
(`app/core/websocket_manager.py`, endpoint setup in
`app/api/routes/websocket.py`) of the invoice-parser repository.

Modelling conventions:
* Python dicts are association lists `List (String × β)` accessed through
  `findKey` (dict lookup), `setKey` (dict assignment) and `eraseKey`
  (dict deletion); Python sets of strings are duplicate-free lists with
  `addIfAbsent` (set.add) and `List.filter` (set.discard).
* `datetime` fields (`created_at`, `started_at`, `completed_at`,
  `processed_at`, timestamps in envelopes) and the float fields
  (`percentage`, `estimated_remaining_time`) are omitted: real time and
  floating point are outside the embedding, and no modelled property
  reads them.
* `uuid4` item ids are replaced by the item's submission index.
* The executor loops interact with external collaborators
  (`invoice_service.process_invoice` / `save_invoice`,
  `db_service.delete_invoice`) and may hit a per-item exception; one run
  of a loop is therefore parameterised by a list of per-item outcome
  events (`UploadEvent` / `DeleteEvent`).
* The concurrency model of the service is asyncio: an executor loop's
  mutations are only observable by other tasks at its `await` points.
  The executors below therefore return, besides the final operation, the
  list of progress values observable at each suspension point
  (`_notify_progress`, the awaited collaborator call, the inter-item
  `asyncio.sleep`, and the final notification).
* WebSocket transport is modelled as delivering successfully (the
  `client_state == CONNECTED` happy path); no modelled claim concerns
  delivery failure.
-/

/-- Dict lookup on an association list (first binding wins, as in a dict
where keys are unique). -/
def findKey {β : Type} : List (String × β) → String → Option β
  | [], _ => none
  | (k, v) :: rest, key => if k = key then some v else findKey rest key

/-- Dict assignment: replace the binding of `key`, or append a fresh one. -/
def setKey {β : Type} : List (String × β) → String → β → List (String × β)
  | [], key, v => [(key, v)]
  | (k, w) :: rest, key, v =>
    if k = key then (key, v) :: rest else (k, w) :: setKey rest key v

/-- Dict deletion of `key`. -/
def eraseKey {β : Type} (l : List (String × β)) (key : String) : List (String × β) :=
  l.filter (fun e => e.1 != key)

/-- defaultdict-style lookup with a default value. -/
def getKeyD {β : Type} (l : List (String × β)) (key : String) (d : β) : β :=
  (findKey l key).getD d

/-- set.add on a list-as-set. -/
def addIfAbsent (l : List String) (x : String) : List String :=
  if x ∈ l then l else l ++ [x]

/-- Python `BulkOperationType` enum (member names kept). -/
inductive BulkOperationType
  | UPLOAD_PROCESS
  | DELETE
  | UPDATE
  | EXPORT
  | REPROCESS
  | ARCHIVE
  | VALIDATE
deriving DecidableEq, Repr

/-- Python `BulkOperationStatus` enum (member names kept). -/
inductive BulkOperationStatus
  | PENDING
  | RUNNING
  | COMPLETED
  | FAILED
  | CANCELLED
  | PARTIAL
deriving DecidableEq, Repr

/-- Terminal statuses: `completed`, `partial`, `failed`, `cancelled`. -/
def BulkOperationStatus.isTerminal : BulkOperationStatus → Bool
  | .COMPLETED => true
  | .FAILED => true
  | .CANCELLED => true
  | .PARTIAL => true
  | _ => false

/-- Python dataclass `BulkOperationItem`: `id` is the submission index,
`data` the filename (upload) or invoice id (delete), `result` the result
payload marker (saved invoice id, or "deleted"). -/
structure BulkOperationItem where
  id : Nat
  status : String
  data : String
  result : Option String := none
  error : Option String := none
deriving DecidableEq, Repr

/-- Python dataclass `BulkOperationProgress` (counter fields; the derived
float fields are omitted). -/
structure BulkOperationProgress where
  total : Nat
  processed : Nat
  successful : Nat
  failed : Nat
deriving DecidableEq, Repr

/-- Python dataclass `BulkOperation`. -/
structure BulkOperation where
  id : String
  user_id : String
  operation_type : BulkOperationType
  status : BulkOperationStatus
  items : List BulkOperationItem
  progress : BulkOperationProgress
  error : Option String := none
deriving DecidableEq, Repr

/-- The mutable state of `BulkOperationsService`: the operation store and
the ids with a scheduled executor task. -/
structure BulkService where
  active_operations : List (String × BulkOperation)
  operation_tasks : List String
deriving DecidableEq, Repr

/-- `create_bulk_upload_operation`: one pending item per file, zeroed
progress with `total = len(items)`, status `pending`. -/
def create_bulk_upload_operation (operation_id user_id : String)
    (filenames : List String) : BulkOperation :=
  { id := operation_id
    user_id := user_id
    operation_type := BulkOperationType.UPLOAD_PROCESS
    status := BulkOperationStatus.PENDING
    items := filenames.enum.map (fun p =>
      { id := p.1, status := "pending", data := p.2 })
    progress :=
      { total := filenames.length, processed := 0, successful := 0, failed := 0 } }

/-- `create_bulk_delete_operation`: one pending item per invoice id,
zeroed progress, status `pending`. -/
def create_bulk_delete_operation (operation_id user_id : String)
    (invoice_ids : List String) : BulkOperation :=
  { id := operation_id
    user_id := user_id
    operation_type := BulkOperationType.DELETE
    status := BulkOperationStatus.PENDING
    items := invoice_ids.enum.map (fun p =>
      { id := p.1, status := "pending", data := p.2 })
    progress :=
      { total := invoice_ids.length, processed := 0, successful := 0, failed := 0 } }

/-- `start_operation`: unknown id or non-pending status fail without any
mutation; a pending operation flips to `running` and, for the two
supported types, an executor task is scheduled; for any other type the
operation is stored as `failed` with error "Unsupported operation type"
and no task is scheduled. Returns the Python boolean result together
with the service state after the call. -/
def start_operation (s : BulkService) (operation_id : String) :
    Bool × BulkService :=
  match findKey s.active_operations operation_id with
  | none => (false, s)
  | some op =>
    if op.status ≠ BulkOperationStatus.PENDING then (false, s)
    else
      let op1 := { op with status := BulkOperationStatus.RUNNING }
      match op1.operation_type with
      | BulkOperationType.UPLOAD_PROCESS =>
        (true, { active_operations := setKey s.active_operations operation_id op1,
                 operation_tasks := s.operation_tasks ++ [operation_id] })
      | BulkOperationType.DELETE =>
        (true, { active_operations := setKey s.active_operations operation_id op1,
                 operation_tasks := s.operation_tasks ++ [operation_id] })
      | _ =>
        let op2 := { op1 with status := BulkOperationStatus.FAILED,
                              error := some "Unsupported operation type" }
        (false,
         { s with active_operations := setKey s.active_operations operation_id op2 })

/-- `cancel_operation`: unknown id or non-running status fail without any
mutation; a running operation has its scheduled task cancelled and
removed, and the caller itself stores status `cancelled`. -/
def cancel_operation (s : BulkService) (operation_id : String) :
    Bool × BulkService :=
  match findKey s.active_operations operation_id with
  | none => (false, s)
  | some op =>
    if op.status ≠ BulkOperationStatus.RUNNING then (false, s)
    else
      (true,
       { active_operations :=
          setKey s.active_operations operation_id
            { op with status := BulkOperationStatus.CANCELLED },
         operation_tasks := s.operation_tasks.filter (fun t => t != operation_id) })

/-- `get_operation_items`: pagination over the item list; the Python
slice `items[offset:offset + limit]` (route layer enforces
`limit >= 1`, `offset >= 0`, hence `Nat` arguments). -/
def get_operation_items (s : BulkService) (operation_id : String)
    (limit offset : Nat) : Option (List BulkOperationItem) :=
  match findKey s.active_operations operation_id with
  | none => none
  | some op => some ((op.items.drop offset).take limit)

/-- Result of `invoice_service.process_invoice`: `success` flag, the
extracted data (`none` models Python `None`), the error message. -/
structure ProcessInvoiceResult where
  success : Bool
  data : Option String
  error : Option String
deriving DecidableEq, Repr

/-- Result of `invoice_service.save_invoice`: `success` flag, the id of
the saved invoice, the error message. -/
structure SaveInvoiceResult where
  success : Bool
  invoice_id : String
  error : Option String
deriving DecidableEq, Repr

/-- Outcome of one iteration's collaborator interaction in
`_execute_bulk_upload`: either `process_invoice` (and, when consulted,
`save_invoice`) returned, or some call raised an exception with message
`msg` (caught by the per-item `except` branch). -/
inductive UploadEvent
  | result (pr : ProcessInvoiceResult) (sr : SaveInvoiceResult)
  | exn (msg : String)
deriving DecidableEq, Repr

/-- One iteration of the `_execute_bulk_upload` loop body acting on the
current progress and item, following the source branch for branch:
exceptions mark the item failed and bump `processed` and `failed`;
otherwise the item is marked from the process/save results and exactly
one of `successful`/`failed` is bumped before `processed`. -/
def uploadItemStep (p : BulkOperationProgress) (it : BulkOperationItem)
    (ev : UploadEvent) : BulkOperationProgress × BulkOperationItem :=
  match ev with
  | UploadEvent.exn msg =>
    ({ p with processed := p.processed + 1, failed := p.failed + 1 },
     { it with status := "failed", error := some msg })
  | UploadEvent.result pr sr =>
    let step :=
      if pr.success then
        if pr.data.isSome then
          if sr.success then
            ({ p with successful := p.successful + 1 },
             { it with status := "completed", result := some sr.invoice_id })
          else
            ({ p with failed := p.failed + 1 },
             { it with status := "failed", error := sr.error })
        else
          ({ p with failed := p.failed + 1 },
           { it with status := "failed", error := some "No data extracted from invoice" })
      else
        ({ p with failed := p.failed + 1 },
         { it with status := "failed", error := pr.error })
    ({ step.1 with processed := step.1.processed + 1 }, step.2)

/-- The `for i, (item, file_data) in enumerate(zip(...))` loop of
`_execute_bulk_upload`. Besides the final progress and items, it
returns the progress values observable at the loop's suspension points:
on entering an iteration (`_notify_progress` and the awaited
`process_invoice` call) and after the iteration's counter updates (the
inter-item `asyncio.sleep`, or the next observable await). Items beyond
the zip length stay untouched. -/
def runUpload (p : BulkOperationProgress) :
    List BulkOperationItem → List UploadEvent →
    BulkOperationProgress × List BulkOperationItem × List BulkOperationProgress
  | [], _ => (p, [], [])
  | its, [] => (p, its, [])
  | it :: its, ev :: evs =>
    let st := uploadItemStep p it ev
    let rest := runUpload st.1 its evs
    (rest.1, st.2 :: rest.2.1, p :: st.1 :: rest.2.2)

/-- `_execute_bulk_upload` on an operation for a run described by
`events`: run the loop over the items, then finalize status as
`completed` when no item failed, else `partial`. Returns the final
operation together with every observable progress snapshot of the run
(the loop's plus the final-notification one). -/
def _execute_bulk_upload (op : BulkOperation) (events : List UploadEvent) :
    BulkOperation × List BulkOperationProgress :=
  let r := runUpload op.progress op.items events
  let finalStatus :=
    if r.1.failed = 0 then BulkOperationStatus.COMPLETED
    else BulkOperationStatus.PARTIAL
  ({ op with items := r.2.1, progress := r.1, status := finalStatus },
   r.2.2 ++ [r.1])

/-- Outcome of one iteration's collaborator interaction in
`_execute_bulk_delete`: `db_service.delete_invoice` returned a dict with
a `success` flag and an optional `error` entry, or raised. -/
inductive DeleteEvent
  | result (success : Bool) (error : Option String)
  | exn (msg : String)
deriving DecidableEq, Repr

/-- One iteration of the `_execute_bulk_delete` loop body: on success
the item is completed with result `deleted`; on failure the item's
error is the dict's `error` entry with default "Unknown error"; an
exception marks the item failed with the exception message. -/
def deleteItemStep (p : BulkOperationProgress) (it : BulkOperationItem)
    (ev : DeleteEvent) : BulkOperationProgress × BulkOperationItem :=
  match ev with
  | DeleteEvent.exn msg =>
    ({ p with processed := p.processed + 1, failed := p.failed + 1 },
     { it with status := "failed", error := some msg })
  | DeleteEvent.result ok err =>
    let step :=
      if ok then
        ({ p with successful := p.successful + 1 },
         { it with status := "completed", result := some "deleted" })
      else
        ({ p with failed := p.failed + 1 },
         { it with status := "failed", error := some (err.getD "Unknown error") })
    ({ step.1 with processed := step.1.processed + 1 }, step.2)

/-- The `for item in operation.items` loop of `_execute_bulk_delete`,
with the same snapshot convention as `runUpload`. An event list shorter
than the item list models a prefix of the run. -/
def runDelete (p : BulkOperationProgress) :
    List BulkOperationItem → List DeleteEvent →
    BulkOperationProgress × List BulkOperationItem × List BulkOperationProgress
  | [], _ => (p, [], [])
  | its, [] => (p, its, [])
  | it :: its, ev :: evs =>
    let st := deleteItemStep p it ev
    let rest := runDelete st.1 its evs
    (rest.1, st.2 :: rest.2.1, p :: st.1 :: rest.2.2)

/-- `_execute_bulk_delete` on an operation for a run described by
`events`, with the same finalization and snapshot convention as
`_execute_bulk_upload`. -/
def _execute_bulk_delete (op : BulkOperation) (events : List DeleteEvent) :
    BulkOperation × List BulkOperationProgress :=
  let r := runDelete op.progress op.items events
  let finalStatus :=
    if r.1.failed = 0 then BulkOperationStatus.COMPLETED
    else BulkOperationStatus.PARTIAL
  ({ op with items := r.2.1, progress := r.1, status := finalStatus },
   r.2.2 ++ [r.1])

/-- The progress-counter consistency invariant of the spec. -/
def progressConsistent (p : BulkOperationProgress) : Prop :=
  p.processed = p.successful + p.failed ∧ p.processed ≤ p.total

/-- An upload iteration whose collaborator interaction fails and carries
an error message: an exception, a failed `process_invoice` with its
error set, a successful extraction without data, or a failed
`save_invoice` with its error set. -/
def UploadEvent.failsWithMsg : UploadEvent → Prop
  | UploadEvent.exn _ => True
  | UploadEvent.result pr sr =>
    (pr.success = false ∧ pr.error.isSome = true) ∨
    (pr.success = true ∧ pr.data = none) ∨
    (pr.success = true ∧ pr.data.isSome = true ∧ sr.success = false ∧
      sr.error.isSome = true)

instance (ev : UploadEvent) : Decidable ev.failsWithMsg := by
  cases ev <;> simp [UploadEvent.failsWithMsg] <;> infer_instance

/-- A delete iteration whose collaborator interaction fails: an
exception, or a returned dict with `success = False`. -/
def DeleteEvent.fails : DeleteEvent → Prop
  | DeleteEvent.exn _ => True
  | DeleteEvent.result ok _ => ok = false

instance (ev : DeleteEvent) : Decidable ev.fails := by
  cases ev <;> simp [DeleteEvent.fails] <;> infer_instance

/-- A registered `WebSocketConnection` (metadata and timestamps
omitted); `subscriptions` is the connection's topic set. -/
structure WSConnection where
  user_id : String
  connection_id : String
  subscriptions : List String
deriving DecidableEq, Repr

/-- The integer counters of `WebSocketManager.stats`
(`connections_by_user` values are `Int` because the source compares
them with `<= 0` after decrementing). -/
structure WSStats where
  total_connections : Nat
  active_connections : Int
  messages_sent : Nat
  messages_failed : Nat
  connections_by_user : List (String × Int)
deriving DecidableEq, Repr

/-- The mutable state of `WebSocketManager`: the per-user index (lists
of connection ids), the registry by connection id, the topic
subscription sets, and the statistics counters. -/
structure WebSocketManager where
  user_connections : List (String × List String)
  connections : List (String × WSConnection)
  topic_subscriptions : List (String × List String)
  stats : WSStats
deriving DecidableEq, Repr

/-- An outbound envelope: target connection, the envelope `type` field,
and the `message` field (timestamp omitted). -/
structure OutMessage where
  connection_id : String
  mtype : String
  message : String
deriving DecidableEq, Repr

/-- `send_to_connection`: unknown connection ids send nothing and return
`False`; otherwise the envelope is delivered (transport modelled as
connected) and `messages_sent` is bumped. -/
def WebSocketManager.send_to_connection (m : WebSocketManager)
    (connection_id : String) (env : OutMessage) :
    Bool × WebSocketManager × List OutMessage :=
  match findKey m.connections connection_id with
  | none => (false, m, [])
  | some _ =>
    (true,
     { m with stats := { m.stats with messages_sent := m.stats.messages_sent + 1 } },
     [env])

/-- `WebSocketManager.connect`: register the connection under its id and
its user, bump the statistics, then send the `connection_established`
welcome envelope to the new connection. -/
def WebSocketManager.connect (m : WebSocketManager)
    (user_id connection_id : String) :
    WebSocketManager × List OutMessage :=
  let conn : WSConnection :=
    { user_id := user_id, connection_id := connection_id, subscriptions := [] }
  let m1 : WebSocketManager :=
    { user_connections :=
        setKey m.user_connections user_id
          (getKeyD m.user_connections user_id [] ++ [connection_id])
      connections := setKey m.connections connection_id conn
      topic_subscriptions := m.topic_subscriptions
      stats :=
        { m.stats with
            total_connections := m.stats.total_connections + 1
            active_connections := m.stats.active_connections + 1
            connections_by_user :=
              setKey m.stats.connections_by_user user_id
                (getKeyD m.stats.connections_by_user user_id 0 + 1) } }
  let sent := m1.send_to_connection connection_id
    { connection_id := connection_id
      mtype := "connection_established"
      message := "WebSocket connection established" }
  (sent.2.1, sent.2.2)

/-- `WebSocketManager.disconnect`: an unknown id returns with no change;
otherwise the connection id is filtered out of its user's index entry
(entry deleted when emptied), discarded from every topic's subscriber
set, removed from the registry, and the statistics are decremented. -/
def WebSocketManager.disconnect (m : WebSocketManager)
    (connection_id : String) : WebSocketManager :=
  match findKey m.connections connection_id with
  | none => m
  | some conn =>
    let uid := conn.user_id
    let user_connections1 :=
      match findKey m.user_connections uid with
      | none => m.user_connections
      | some l =>
        let l1 := l.filter (fun c => c != connection_id)
        if l1 = [] then eraseKey m.user_connections uid
        else setKey m.user_connections uid l1
    let topic_subscriptions1 :=
      m.topic_subscriptions.map
        (fun ts => (ts.1, ts.2.filter (fun c => c != connection_id)))
    let byUser := getKeyD m.stats.connections_by_user uid 0 - 1
    let stats1 :=
      { m.stats with
          active_connections := m.stats.active_connections - 1
          connections_by_user :=
            if byUser ≤ 0 then eraseKey m.stats.connections_by_user uid
            else setKey m.stats.connections_by_user uid byUser }
    { user_connections := user_connections1
      connections := eraseKey m.connections connection_id
      topic_subscriptions := topic_subscriptions1
      stats := stats1 }

/-- `subscribe_to_topic`: unknown connection ids fail; otherwise the
topic joins the connection's subscription set and the connection id
joins the topic's subscriber set. -/
def WebSocketManager.subscribe_to_topic (m : WebSocketManager)
    (connection_id topic : String) : Bool × WebSocketManager :=
  match findKey m.connections connection_id with
  | none => (false, m)
  | some conn =>
    let conn1 := { conn with subscriptions := addIfAbsent conn.subscriptions topic }
    (true,
     { m with
         connections := setKey m.connections connection_id conn1
         topic_subscriptions :=
           setKey m.topic_subscriptions topic
             (addIfAbsent (getKeyD m.topic_subscriptions topic []) connection_id) })

/-- `unsubscribe_from_topic`: discard the topic from the connection's
subscription set (when the connection is known) and the connection id
from the topic's subscriber set (when the topic is known); always
returns `True`. -/
def WebSocketManager.unsubscribe_from_topic (m : WebSocketManager)
    (connection_id topic : String) : Bool × WebSocketManager :=
  let m1 :=
    match findKey m.connections connection_id with
    | none => m
    | some conn =>
      let conn1 := { conn with
        subscriptions := conn.subscriptions.filter (fun t => t != topic) }
      { m with connections := setKey m.connections connection_id conn1 }
  let m2 :=
    match findKey m1.topic_subscriptions topic with
    | none => m1
    | some subs =>
      { m1 with topic_subscriptions :=
          setKey m1.topic_subscriptions topic (subs.filter (fun c => c != connection_id)) }
  (true, m2)

/-- An inbound live-channel payload after the `json.loads` attempt of
`handle_message`: `malformed` models a payload that raises
`json.JSONDecodeError`; the others model parsed payloads by their
`type` field (`other` is any parseable payload of a different or
missing type, which elicits no response). -/
inductive InboundMessage
  | malformed (raw : String)
  | ping
  | subscribe (topic : Option String)
  | unsubscribe (topic : Option String)
  | getStats
  | other (mtype : Option String)
deriving DecidableEq, Repr

/-- `handle_message`: dispatch on the parsed payload; an unparseable
payload elicits an `error` envelope on the same connection and nothing
else. -/
def WebSocketManager.handle_message (m : WebSocketManager)
    (connection_id : String) (msg : InboundMessage) :
    WebSocketManager × List OutMessage :=
  match msg with
  | InboundMessage.malformed _ =>
    let r := m.send_to_connection connection_id
      { connection_id := connection_id, mtype := "error"
        message := "Invalid JSON message" }
    (r.2.1, r.2.2)
  | InboundMessage.ping =>
    let r := m.send_to_connection connection_id
      { connection_id := connection_id, mtype := "pong", message := "" }
    (r.2.1, r.2.2)
  | InboundMessage.subscribe topic? =>
    match topic? with
    | none => (m, [])
    | some topic =>
      let sub := m.subscribe_to_topic connection_id topic
      let r := sub.2.send_to_connection connection_id
        { connection_id := connection_id, mtype := "subscription_response"
          message := topic }
      (r.2.1, r.2.2)
  | InboundMessage.unsubscribe topic? =>
    match topic? with
    | none => (m, [])
    | some topic =>
      let unsub := m.unsubscribe_from_topic connection_id topic
      let r := unsub.2.send_to_connection connection_id
        { connection_id := connection_id, mtype := "unsubscription_response"
          message := topic }
      (r.2.1, r.2.2)
  | InboundMessage.getStats =>
    match findKey m.connections connection_id with
    | none => (m, [])
    | some _ =>
      let r := m.send_to_connection connection_id
        { connection_id := connection_id, mtype := "stats_response", message := "" }
      (r.2.1, r.2.2)
  | InboundMessage.other _ => (m, [])

/-- The post-authentication setup of `websocket_endpoint`
(`app/api/routes/websocket.py`): register via
`WebSocketManager.connect` (which sends the welcome envelope), then
auto-subscribe the connection to the private topic `user:<user_id>`.
Returns the manager state after setup and the envelopes sent during
setup, in order. -/
def websocket_endpoint_setup (m : WebSocketManager)
    (user_id connection_id : String) :
    WebSocketManager × List OutMessage :=
  let c := m.connect user_id connection_id
  let sub := c.1.subscribe_to_topic connection_id ("user:" ++ user_id)
  (sub.2, c.2)

section AssocLemmas

variable {β : Type}

theorem findKey_setKey_self (l : List (String × β)) (k : String) (v : β) :
    findKey (setKey l k v) k = some v := by
  induction l with
  | nil => simp [setKey, findKey]
  | cons e rest ih =>
    by_cases h : e.1 = k
    · simp [setKey, h, findKey]
    · simp [setKey, h, findKey, ih]

theorem findKey_setKey_ne (l : List (String × β)) (k k1 : String) (v : β)
    (h : k1 ≠ k) : findKey (setKey l k v) k1 = findKey l k1 := by
  induction l with
  | nil => simp [setKey, findKey, Ne.symm h]
  | cons e rest ih =>
    obtain ⟨a, b⟩ := e
    by_cases he : a = k
    · simp [setKey, he, findKey, Ne.symm h]
    · simp [setKey, he, findKey, ih]

theorem findKey_eq_some_mem {l : List (String × β)} {k : String} {v : β}
    (h : findKey l k = some v) : (k, v) ∈ l := by
  induction l with
  | nil => simp [findKey] at h
  | cons e rest ih =>
    obtain ⟨a, b⟩ := e
    by_cases he : a = k
    · simp only [findKey, he, if_pos, Option.some.injEq] at h
      subst he
      subst h
      exact List.mem_cons_self _ _
    · simp only [findKey, he, if_neg, ite_false] at h
      exact List.mem_cons_of_mem _ (ih h)

theorem findKey_eq_none_not_mem (l : List (String × β)) (k : String) :
    findKey l k = none → ∀ v : β, (k, v) ∉ l := by
  induction l with
  | nil => intro _ v hv; simp at hv
  | cons e rest ih =>
    obtain ⟨a, b⟩ := e
    intro h v hv
    by_cases he : a = k
    · simp [findKey, he] at h
    · simp only [findKey, he, if_neg, ite_false] at h
      rcases List.mem_cons.mp hv with h1 | h1
      · exact he (congrArg Prod.fst h1).symm
      · exact ih h v h1

theorem findKey_eraseKey_self (l : List (String × β)) (k : String) :
    findKey (eraseKey l k) k = none := by
  induction l with
  | nil => simp [eraseKey, findKey]
  | cons e rest ih =>
    obtain ⟨a, b⟩ := e
    simp only [eraseKey, List.filter_cons] at ih ⊢
    by_cases he : a = k
    · simp [he, ih]
    · simp [he, findKey, ih]

theorem findKey_eraseKey_ne (l : List (String × β)) (k k1 : String)
    (h : k1 ≠ k) : findKey (eraseKey l k) k1 = findKey l k1 := by
  induction l with
  | nil => simp [eraseKey, findKey]
  | cons e rest ih =>
    obtain ⟨a, b⟩ := e
    simp only [eraseKey, List.filter_cons] at ih ⊢
    by_cases he : a = k
    · simp [he, findKey, Ne.symm h, ih]
    · by_cases he1 : a = k1
      · simp [he, findKey, he1, h]
      · simp [he, findKey, he1, ih]

theorem findKey_map_val {γ : Type} (l : List (String × β)) (f : β → γ)
    (k : String) :
    findKey (l.map (fun e => (e.1, f e.2))) k = (findKey l k).map f := by
  induction l with
  | nil => simp [findKey]
  | cons e rest ih =>
    by_cases he : e.1 = k
    · simp [findKey, he]
    · simp [findKey, he, ih]

theorem not_mem_filter_bne (l : List String) (a : String) :
    a ∉ l.filter (fun x => x != a) := by
  intro h
  have := List.of_mem_filter h
  simp at this

theorem mem_addIfAbsent (l : List String) (a : String) :
    a ∈ addIfAbsent l a := by
  by_cases h : a ∈ l <;> simp [addIfAbsent, h]

end AssocLemmas

theorem uploadItemStep_counts (p : BulkOperationProgress)
    (it : BulkOperationItem) (ev : UploadEvent) :
    (uploadItemStep p it ev).1.total = p.total ∧
    (uploadItemStep p it ev).1.processed = p.processed + 1 ∧
    (uploadItemStep p it ev).1.successful + (uploadItemStep p it ev).1.failed
      = p.successful + p.failed + 1 := by
  cases ev with
  | exn msg => refine ⟨by simp [uploadItemStep], by simp [uploadItemStep], by simp [uploadItemStep]; omega⟩
  | result pr sr =>
    simp only [uploadItemStep]
    by_cases h1 : pr.success <;> by_cases h2 : pr.data.isSome <;>
      by_cases h3 : sr.success <;> simp [h1, h2, h3] <;> omega

theorem deleteItemStep_counts (p : BulkOperationProgress)
    (it : BulkOperationItem) (ev : DeleteEvent) :
    (deleteItemStep p it ev).1.total = p.total ∧
    (deleteItemStep p it ev).1.processed = p.processed + 1 ∧
    (deleteItemStep p it ev).1.successful + (deleteItemStep p it ev).1.failed
      = p.successful + p.failed + 1 := by
  cases ev with
  | exn msg => refine ⟨by simp [deleteItemStep], by simp [deleteItemStep], by simp [deleteItemStep]; omega⟩
  | result ok err =>
    simp only [deleteItemStep]
    by_cases h1 : ok <;> simp [h1] <;> omega

theorem runUpload_consistent (its : List BulkOperationItem) :
    ∀ (evs : List UploadEvent) (p : BulkOperationProgress),
      p.processed = p.successful + p.failed →
      p.processed + its.length ≤ p.total →
      (∀ q ∈ (runUpload p its evs).2.2, progressConsistent q) ∧
      progressConsistent (runUpload p its evs).1 := by
  induction its with
  | nil =>
    intro evs p h1 h2
    simp only [runUpload]
    exact ⟨by simp, h1, by simpa using h2⟩
  | cons it its ih =>
    intro evs p h1 h2
    cases evs with
    | nil =>
      simp only [runUpload]
      refine ⟨by simp, h1, ?_⟩
      simp only [List.length_cons] at h2
      omega
    | cons ev evs =>
      obtain ⟨ht, hp, hs⟩ := uploadItemStep_counts p it ev
      simp only [List.length_cons] at h2
      have h1s : (uploadItemStep p it ev).1.processed =
          (uploadItemStep p it ev).1.successful + (uploadItemStep p it ev).1.failed := by
        omega
      have h2s : (uploadItemStep p it ev).1.processed + its.length ≤
          (uploadItemStep p it ev).1.total := by
        omega
      obtain ⟨tr, fin⟩ := ih evs (uploadItemStep p it ev).1 h1s h2s
      simp only [runUpload]
      refine ⟨?_, fin⟩
      intro q hq
      rcases List.mem_cons.mp hq with rfl | hq
      · exact ⟨h1, by omega⟩
      rcases List.mem_cons.mp hq with rfl | hq
      · exact ⟨h1s, by omega⟩
      · exact tr q hq

theorem runDelete_consistent (its : List BulkOperationItem) :
    ∀ (evs : List DeleteEvent) (p : BulkOperationProgress),
      p.processed = p.successful + p.failed →
      p.processed + its.length ≤ p.total →
      (∀ q ∈ (runDelete p its evs).2.2, progressConsistent q) ∧
      progressConsistent (runDelete p its evs).1 := by
  induction its with
  | nil =>
    intro evs p h1 h2
    simp only [runDelete]
    exact ⟨by simp, h1, by simpa using h2⟩
  | cons it its ih =>
    intro evs p h1 h2
    cases evs with
    | nil =>
      simp only [runDelete]
      refine ⟨by simp, h1, ?_⟩
      simp only [List.length_cons] at h2
      omega
    | cons ev evs =>
      obtain ⟨ht, hp, hs⟩ := deleteItemStep_counts p it ev
      simp only [List.length_cons] at h2
      have h1s : (deleteItemStep p it ev).1.processed =
          (deleteItemStep p it ev).1.successful + (deleteItemStep p it ev).1.failed := by
        omega
      have h2s : (deleteItemStep p it ev).1.processed + its.length ≤
          (deleteItemStep p it ev).1.total := by
        omega
      obtain ⟨tr, fin⟩ := ih evs (deleteItemStep p it ev).1 h1s h2s
      simp only [runDelete]
      refine ⟨?_, fin⟩
      intro q hq
      rcases List.mem_cons.mp hq with rfl | hq
      · exact ⟨h1, by omega⟩
      rcases List.mem_cons.mp hq with rfl | hq
      · exact ⟨h1s, by omega⟩
      · exact tr q hq

theorem uploadItemStep_fail (p : BulkOperationProgress)
    (it : BulkOperationItem) (ev : UploadEvent) (hf : ev.failsWithMsg) :
    (uploadItemStep p it ev).1.total = p.total ∧
    (uploadItemStep p it ev).1.processed = p.processed + 1 ∧
    (uploadItemStep p it ev).1.successful = p.successful ∧
    (uploadItemStep p it ev).1.failed = p.failed + 1 ∧
    (uploadItemStep p it ev).2.status = "failed" ∧
    (uploadItemStep p it ev).2.error.isSome = true := by
  cases ev with
  | exn msg => simp [uploadItemStep]
  | result pr sr =>
    rcases hf with ⟨h1, h2⟩ | ⟨h1, h2⟩ | ⟨h1, h2, h3, h4⟩
    · simp [uploadItemStep, h1, h2]
    · simp [uploadItemStep, h1, h2]
    · simp [uploadItemStep, h1, h2, h3, h4]

theorem deleteItemStep_fail (p : BulkOperationProgress)
    (it : BulkOperationItem) (ev : DeleteEvent) (hf : ev.fails) :
    (deleteItemStep p it ev).1.total = p.total ∧
    (deleteItemStep p it ev).1.processed = p.processed + 1 ∧
    (deleteItemStep p it ev).1.successful = p.successful ∧
    (deleteItemStep p it ev).1.failed = p.failed + 1 ∧
    (deleteItemStep p it ev).2.status = "failed" ∧
    (deleteItemStep p it ev).2.error.isSome = true := by
  cases ev with
  | exn msg => simp [deleteItemStep]
  | result ok err =>
    have h1 : ok = false := hf
    simp [deleteItemStep, h1]

theorem runUpload_all_fail (its : List BulkOperationItem) :
    ∀ (evs : List UploadEvent) (p : BulkOperationProgress),
      evs.length = its.length →
      (∀ e ∈ evs, e.failsWithMsg) →
      (runUpload p its evs).1.total = p.total ∧
      (runUpload p its evs).1.processed = p.processed + its.length ∧
      (runUpload p its evs).1.successful = p.successful ∧
      (runUpload p its evs).1.failed = p.failed + its.length ∧
      ∀ it ∈ (runUpload p its evs).2.1,
        it.status = "failed" ∧ it.error.isSome = true := by
  induction its with
  | nil =>
    intro evs p hlen _
    rw [List.length_nil, List.length_eq_zero] at hlen
    subst hlen
    simp [runUpload]
  | cons it its ih =>
    intro evs p hlen hall
    cases evs with
    | nil => simp at hlen
    | cons ev evs =>
      simp only [List.length_cons, Nat.succ.injEq] at hlen
      have hev : ev.failsWithMsg := hall ev (List.mem_cons_self _ _)
      obtain ⟨ht, hp, hs, hfl, hst, herr⟩ := uploadItemStep_fail p it ev hev
      obtain ⟨iht, ihp, ihs, ihf, ihitems⟩ :=
        ih evs (uploadItemStep p it ev).1 hlen
          (fun e he => hall e (List.mem_cons_of_mem _ he))
      simp only [runUpload]
      refine ⟨?_, ?_, ?_, ?_, ?_⟩
      · rw [iht, ht]
      · rw [ihp, hp, List.length_cons]; omega
      · rw [ihs, hs]
      · rw [ihf, hfl, List.length_cons]; omega
      intro x hx
      rcases List.mem_cons.mp hx with rfl | hx
      · exact ⟨hst, herr⟩
      · exact ihitems x hx

theorem runDelete_all_fail (its : List BulkOperationItem) :
    ∀ (evs : List DeleteEvent) (p : BulkOperationProgress),
      evs.length = its.length →
      (∀ e ∈ evs, e.fails) →
      (runDelete p its evs).1.total = p.total ∧
      (runDelete p its evs).1.processed = p.processed + its.length ∧
      (runDelete p its evs).1.successful = p.successful ∧
      (runDelete p its evs).1.failed = p.failed + its.length ∧
      ∀ it ∈ (runDelete p its evs).2.1,
        it.status = "failed" ∧ it.error.isSome = true := by
  induction its with
  | nil =>
    intro evs p hlen _
    rw [List.length_nil, List.length_eq_zero] at hlen
    subst hlen
    simp [runDelete]
  | cons it its ih =>
    intro evs p hlen hall
    cases evs with
    | nil => simp at hlen
    | cons ev evs =>
      simp only [List.length_cons, Nat.succ.injEq] at hlen
      have hev : ev.fails := hall ev (List.mem_cons_self _ _)
      obtain ⟨ht, hp, hs, hfl, hst, herr⟩ := deleteItemStep_fail p it ev hev
      obtain ⟨iht, ihp, ihs, ihf, ihitems⟩ :=
        ih evs (deleteItemStep p it ev).1 hlen
          (fun e he => hall e (List.mem_cons_of_mem _ he))
      simp only [runDelete]
      refine ⟨?_, ?_, ?_, ?_, ?_⟩
      · rw [iht, ht]
      · rw [ihp, hp, List.length_cons]; omega
      · rw [ihs, hs]
      · rw [ihf, hfl, List.length_cons]; omega
      intro x hx
      rcases List.mem_cons.mp hx with rfl | hx
      · exact ⟨hst, herr⟩
      · exact ihitems x hx

/-- A concrete running delete operation used to exercise the service
API on explicit inputs. -/
def opRunningEx : BulkOperation :=
  { create_bulk_delete_operation "op1" "u1" ["a", "b", "c"] with
      status := BulkOperationStatus.RUNNING }

/-- A service holding `opRunningEx` with its task scheduled. -/
def svcRunningEx : BulkService :=
  { active_operations := [("op1", opRunningEx)], operation_tasks := ["op1"] }

/-- A concrete completed operation. -/
def opCompletedEx : BulkOperation :=
  { create_bulk_delete_operation "op2" "u1" ["a"] with
      status := BulkOperationStatus.COMPLETED }

/-- A service holding `opCompletedEx` (terminal, no task). -/
def svcCompletedEx : BulkService :=
  { active_operations := [("op2", opCompletedEx)], operation_tasks := [] }

/-- A concrete pending operation of the unsupported `export` type. -/
def opExportEx : BulkOperation :=
  { create_bulk_delete_operation "op3" "u1" ["a"] with
      operation_type := BulkOperationType.EXPORT }

/-- A service holding `opExportEx`. -/
def svcExportEx : BulkService :=
  { active_operations := [("op3", opExportEx)], operation_tasks := [] }

/-- A concrete 5-item operation for pagination checks. -/
def opFiveEx : BulkOperation :=
  create_bulk_delete_operation "op5" "u1" ["i1", "i2", "i3", "i4", "i5"]

/-- A service holding `opFiveEx`. -/
def svcFiveEx : BulkService :=
  { active_operations := [("op5", opFiveEx)], operation_tasks := [] }

/-- Concrete all-failing upload events: a failed extraction, a failed
save after a successful extraction, and a raised exception. -/
def uploadFailEventsEx : List UploadEvent :=
  [UploadEvent.result { success := false, data := none, error := some "bad file" }
     { success := false, invoice_id := "", error := none },
   UploadEvent.result { success := true, data := some "inv", error := none }
     { success := false, invoice_id := "", error := some "db down" },
   UploadEvent.exn "boom"]

/-- Concrete all-failing delete events. -/
def deleteFailEventsEx : List DeleteEvent :=
  [DeleteEvent.result false none, DeleteEvent.exn "gone"]

/-- The empty hub state. -/
def wsEmpty : WebSocketManager :=
  { user_connections := []
    connections := []
    topic_subscriptions := []
    stats := { total_connections := 0, active_connections := 0,
               messages_sent := 0, messages_failed := 0,
               connections_by_user := [] } }

/-- A hub with one connection `c1` of user `u9` after endpoint setup. -/
def wsEx : WebSocketManager := (websocket_endpoint_setup wsEmpty "u9" "c1").1

/-- The connection record of `c1` inside `wsEx`. -/
def wsConnEx : WSConnection :=
  { user_id := "u9", connection_id := "c1", subscriptions := ["user:u9"] }

/-- C4: for every operation whose status is not `pending`,
`start_operation` returns the failure result and the whole service
state — the operation store (hence every operation's progress counters,
item statuses and status) and the task table — is returned unchanged. -/
theorem start_non_pending_fails_no_mutation (s : BulkService)
    (operation_id : String) (op : BulkOperation)
    (h1 : findKey s.active_operations operation_id = some op)
    (h2 : op.status ≠ BulkOperationStatus.PENDING) :
    start_operation s operation_id = (false, s) := by
  simp [start_operation, h1, h2]

/-- Witness for C4 on a concrete running operation. -/
theorem start_non_pending_fails_no_mutation_witness :
    findKey svcRunningEx.active_operations "op1" = some opRunningEx ∧
    opRunningEx.status ≠ BulkOperationStatus.PENDING ∧
    start_operation svcRunningEx "op1" = (false, svcRunningEx) := by
  refine ⟨by decide, by decide, ?_⟩
  exact start_non_pending_fails_no_mutation svcRunningEx "op1" opRunningEx
    (by decide) (by decide)

/-- C5: for every operation already in a terminal state (`completed`,
`partial`, `failed` or `cancelled`), `cancel_operation` returns the
failure result and the whole service state is returned unchanged — in
particular the stored status is never flipped to `cancelled`. -/
theorem cancel_terminal_fails_no_mutation (s : BulkService)
    (operation_id : String) (op : BulkOperation)
    (h1 : findKey s.active_operations operation_id = some op)
    (h2 : op.status.isTerminal = true) :
    cancel_operation s operation_id = (false, s) := by
  have hne : op.status ≠ BulkOperationStatus.RUNNING := by
    cases h : op.status <;> simp [BulkOperationStatus.isTerminal, h] at h2 ⊢
  simp [cancel_operation, h1, hne]

/-- Witness for C5 on a concrete completed operation. -/
theorem cancel_terminal_fails_no_mutation_witness :
    findKey svcCompletedEx.active_operations "op2" = some opCompletedEx ∧
    opCompletedEx.status.isTerminal = true ∧
    cancel_operation svcCompletedEx "op2" = (false, svcCompletedEx) := by
  refine ⟨by decide, by decide, ?_⟩
  exact cancel_terminal_fails_no_mutation svcCompletedEx "op2" opCompletedEx
    (by decide) (by decide)

/-- C2, counterexample: on a concrete running operation the caller
`cancel_operation` itself stores status `cancelled` (and reports
success), refuting "status is not set to `Cancelled` by the caller —
only the loop itself finalizes state". -/
theorem cancel_sets_cancelled_itself_cex :
    opRunningEx.status = BulkOperationStatus.RUNNING ∧
    (cancel_operation svcRunningEx "op1").1 = true ∧
    findKey (cancel_operation svcRunningEx "op1").2.active_operations "op1" =
      some { opRunningEx with status := BulkOperationStatus.CANCELLED } := by
  refine ⟨by decide, by decide, by decide⟩

/-- C2, amended: when `cancel_operation` is called on a running
operation it reports success, cancels and removes the scheduled task,
and itself finalizes the stored status to `cancelled` (there is no
cancellation flag observed by the executor loop). -/
theorem cancel_running_cancels_task_and_sets_cancelled (s : BulkService)
    (operation_id : String) (op : BulkOperation)
    (h1 : findKey s.active_operations operation_id = some op)
    (h2 : op.status = BulkOperationStatus.RUNNING) :
    (cancel_operation s operation_id).1 = true ∧
    operation_id ∉ (cancel_operation s operation_id).2.operation_tasks ∧
    findKey (cancel_operation s operation_id).2.active_operations operation_id =
      some { op with status := BulkOperationStatus.CANCELLED } := by
  refine ⟨?_, ?_, ?_⟩
  · simp [cancel_operation, h1, h2]
  · simp only [cancel_operation, h1, h2]
    exact not_mem_filter_bne s.operation_tasks operation_id
  · simp only [cancel_operation, h1, h2]
    simpa using findKey_setKey_self s.active_operations operation_id
      { op with status := BulkOperationStatus.CANCELLED }

/-- Witness for the amended C2 on a concrete running operation. -/
theorem cancel_running_cancels_task_and_sets_cancelled_witness :
    findKey svcRunningEx.active_operations "op1" = some opRunningEx ∧
    opRunningEx.status = BulkOperationStatus.RUNNING ∧
    ((cancel_operation svcRunningEx "op1").1 = true ∧
     "op1" ∉ (cancel_operation svcRunningEx "op1").2.operation_tasks ∧
     findKey (cancel_operation svcRunningEx "op1").2.active_operations "op1" =
       some { opRunningEx with status := BulkOperationStatus.CANCELLED }) := by
  refine ⟨by decide, by decide, ?_⟩
  exact cancel_running_cancels_task_and_sets_cancelled svcRunningEx "op1"
    opRunningEx (by decide) (by decide)

/-- C10: a pending operation whose type is neither `upload_process` nor
`delete` is stored by `start_operation` as `failed` with error string
"Unsupported operation type", keeping its items and progress counters;
no executor task is scheduled and the failure result is returned. -/
theorem start_unsupported_type_fails_operation (s : BulkService)
    (operation_id : String) (op : BulkOperation)
    (h1 : findKey s.active_operations operation_id = some op)
    (h2 : op.status = BulkOperationStatus.PENDING)
    (h3 : op.operation_type ≠ BulkOperationType.UPLOAD_PROCESS)
    (h4 : op.operation_type ≠ BulkOperationType.DELETE) :
    (start_operation s operation_id).1 = false ∧
    (start_operation s operation_id).2.operation_tasks = s.operation_tasks ∧
    findKey (start_operation s operation_id).2.active_operations operation_id =
      some { op with status := BulkOperationStatus.FAILED,
                     error := some "Unsupported operation type" } := by
  cases htype : op.operation_type <;> try exact absurd htype h3
  case DELETE => exact absurd htype h4
  all_goals
    refine ⟨?_, ?_, ?_⟩ <;>
      simp only [start_operation, h1, h2, htype] <;>
      simp [findKey_setKey_self]

/-- Witness for C10 on a concrete pending `export` operation. -/
theorem start_unsupported_type_fails_operation_witness :
    findKey svcExportEx.active_operations "op3" = some opExportEx ∧
    opExportEx.status = BulkOperationStatus.PENDING ∧
    opExportEx.operation_type ≠ BulkOperationType.UPLOAD_PROCESS ∧
    opExportEx.operation_type ≠ BulkOperationType.DELETE ∧
    ((start_operation svcExportEx "op3").1 = false ∧
     (start_operation svcExportEx "op3").2.operation_tasks = svcExportEx.operation_tasks ∧
     findKey (start_operation svcExportEx "op3").2.active_operations "op3" =
       some { opExportEx with status := BulkOperationStatus.FAILED,
                              error := some "Unsupported operation type" }) := by
  refine ⟨by decide, by decide, by decide, by decide, ?_⟩
  exact start_unsupported_type_fails_operation svcExportEx "op3" opExportEx
    (by decide) (by decide) (by decide) (by decide)

/-- C8: for every existing operation and every `limit`/`offset`,
`get_operation_items` returns the contiguous slice of the item list
starting at index `offset`, of length at most `limit`, in original
submission order (element `j` of the page is element `offset + j` of
the full list). -/
theorem get_operation_items_slice (s : BulkService) (operation_id : String)
    (op : BulkOperation) (limit offset : Nat)
    (h1 : findKey s.active_operations operation_id = some op) :
    ∃ page, get_operation_items s operation_id limit offset = some page ∧
      page = (op.items.drop offset).take limit ∧
      page.length ≤ limit ∧
      ∀ j : Nat, j < page.length → page[j]? = op.items[offset + j]? := by
  refine ⟨(op.items.drop offset).take limit, ?_, rfl, by simp, ?_⟩
  · simp [get_operation_items, h1]
  · intro j hj
    have hjlt : j < limit := lt_of_lt_of_le hj (by simp)
    rw [List.getElem?_take]
    simp [hjlt, List.getElem?_drop]

/-- Witness for C8: on a concrete 5-item operation, `limit = 2` and
`offset = 1` return exactly the second and third submitted items. -/
theorem get_operation_items_slice_witness :
    findKey svcFiveEx.active_operations "op5" = some opFiveEx ∧
    (∃ page, get_operation_items svcFiveEx "op5" 2 1 = some page ∧
      page = (opFiveEx.items.drop 1).take 2 ∧
      page.length ≤ 2 ∧
      ∀ j : Nat, j < page.length → page[j]? = opFiveEx.items[1 + j]?) ∧
    get_operation_items svcFiveEx "op5" 2 1 =
      some [{ id := 1, status := "pending", data := "i2" },
            { id := 2, status := "pending", data := "i3" }] := by
  refine ⟨by decide, ?_, by decide⟩
  exact get_operation_items_slice svcFiveEx "op5" opFiveEx 2 1 (by decide)

/-- C1: for every bulk upload run and every bulk delete run (over any
per-item outcome events, the per-item exception branch included), every
progress value observable at a suspension point of the executor loop —
hence every progress readable through `get_operation` — satisfies
`processed = successful + failed` and `processed <= total`. -/
theorem bulk_progress_snapshots_consistent
    (up_id del_id user : String) (filenames invoice_ids : List String)
    (uevents : List UploadEvent) (devents : List DeleteEvent) :
    (∀ q ∈ (_execute_bulk_upload
        { create_bulk_upload_operation up_id user filenames with
            status := BulkOperationStatus.RUNNING } uevents).2,
      progressConsistent q) ∧
    (∀ q ∈ (_execute_bulk_delete
        { create_bulk_delete_operation del_id user invoice_ids with
            status := BulkOperationStatus.RUNNING } devents).2,
      progressConsistent q) := by
  constructor
  · have h := runUpload_consistent
      (create_bulk_upload_operation up_id user filenames).items uevents
      (create_bulk_upload_operation up_id user filenames).progress
      (by simp [create_bulk_upload_operation])
      (by simp [create_bulk_upload_operation])
    intro q hq
    simp only [_execute_bulk_upload, List.mem_append, List.mem_singleton] at hq
    rcases hq with hq | rfl
    · exact h.1 q hq
    · exact h.2
  · have h := runDelete_consistent
      (create_bulk_delete_operation del_id user invoice_ids).items devents
      (create_bulk_delete_operation del_id user invoice_ids).progress
      (by simp [create_bulk_delete_operation])
      (by simp [create_bulk_delete_operation])
    intro q hq
    simp only [_execute_bulk_delete, List.mem_append, List.mem_singleton] at hq
    rcases hq with hq | rfl
    · exact h.1 q hq
    · exact h.2

/-- C3: in every non-empty run where every item's collaborator
interaction fails (carrying an error message), both executor loops
still reach a terminal state: final status is `partial`, `successful = 0`,
`failed = total = processed`, and every item is marked `failed` with a
recorded error message — no item failure aborts the loop. -/
theorem all_failures_contained
    (up_id del_id user : String) (filenames invoice_ids : List String)
    (uevents : List UploadEvent) (devents : List DeleteEvent)
    (hne_u : filenames ≠ []) (hlen_u : uevents.length = filenames.length)
    (hfail_u : ∀ e ∈ uevents, e.failsWithMsg)
    (hne_d : invoice_ids ≠ []) (hlen_d : devents.length = invoice_ids.length)
    (hfail_d : ∀ e ∈ devents, e.fails) :
    ((_execute_bulk_upload
        { create_bulk_upload_operation up_id user filenames with
            status := BulkOperationStatus.RUNNING } uevents).1.status =
        BulkOperationStatus.PARTIAL ∧
     ((_execute_bulk_upload
        { create_bulk_upload_operation up_id user filenames with
            status := BulkOperationStatus.RUNNING } uevents).1.status).isTerminal = true ∧
     (_execute_bulk_upload
        { create_bulk_upload_operation up_id user filenames with
            status := BulkOperationStatus.RUNNING } uevents).1.progress.successful = 0 ∧
     (_execute_bulk_upload
        { create_bulk_upload_operation up_id user filenames with
            status := BulkOperationStatus.RUNNING } uevents).1.progress.failed =
       (_execute_bulk_upload
        { create_bulk_upload_operation up_id user filenames with
            status := BulkOperationStatus.RUNNING } uevents).1.progress.total ∧
     ∀ it ∈ (_execute_bulk_upload
        { create_bulk_upload_operation up_id user filenames with
            status := BulkOperationStatus.RUNNING } uevents).1.items,
       it.status = "failed" ∧ it.error.isSome = true) ∧
    ((_execute_bulk_delete
        { create_bulk_delete_operation del_id user invoice_ids with
            status := BulkOperationStatus.RUNNING } devents).1.status =
        BulkOperationStatus.PARTIAL ∧
     ((_execute_bulk_delete
        { create_bulk_delete_operation del_id user invoice_ids with
            status := BulkOperationStatus.RUNNING } devents).1.status).isTerminal = true ∧
     (_execute_bulk_delete
        { create_bulk_delete_operation del_id user invoice_ids with
            status := BulkOperationStatus.RUNNING } devents).1.progress.successful = 0 ∧
     (_execute_bulk_delete
        { create_bulk_delete_operation del_id user invoice_ids with
            status := BulkOperationStatus.RUNNING } devents).1.progress.failed =
       (_execute_bulk_delete
        { create_bulk_delete_operation del_id user invoice_ids with
            status := BulkOperationStatus.RUNNING } devents).1.progress.total ∧
     ∀ it ∈ (_execute_bulk_delete
        { create_bulk_delete_operation del_id user invoice_ids with
            status := BulkOperationStatus.RUNNING } devents).1.items,
       it.status = "failed" ∧ it.error.isSome = true) := by
  have hitems_u : (create_bulk_upload_operation up_id user filenames).items.length
      = filenames.length := by simp [create_bulk_upload_operation]
  have hitems_d : (create_bulk_delete_operation del_id user invoice_ids).items.length
      = invoice_ids.length := by simp [create_bulk_delete_operation]
  have hpos_u : 0 < filenames.length := List.length_pos.mpr hne_u
  have hpos_d : 0 < invoice_ids.length := List.length_pos.mpr hne_d
  constructor
  · obtain ⟨ht, hp, hs, hf, hits⟩ := runUpload_all_fail
      (create_bulk_upload_operation up_id user filenames).items uevents
      (create_bulk_upload_operation up_id user filenames).progress
      (by rw [hlen_u, hitems_u]) hfail_u
    have hz : (create_bulk_upload_operation up_id user filenames).progress.failed = 0 := rfl
    have hzs : (create_bulk_upload_operation up_id user filenames).progress.successful = 0 := rfl
    have hzt : (create_bulk_upload_operation up_id user filenames).progress.total
        = filenames.length := rfl
    have hfail_pos : (runUpload
        (create_bulk_upload_operation up_id user filenames).progress
        (create_bulk_upload_operation up_id user filenames).items uevents).1.failed ≠ 0 := by
      rw [hf, hz, hitems_u]
      omega
    refine ⟨?_, ?_, ?_, ?_, ?_⟩
    · simp [_execute_bulk_upload, hfail_pos]
    · simp [_execute_bulk_upload, hfail_pos, BulkOperationStatus.isTerminal]
    · simp [_execute_bulk_upload, hs, hzs]
    · simp [_execute_bulk_upload, hf, ht, hz, hzt, hitems_u]
    · intro it hit
      refine hits it ?_
      simpa [_execute_bulk_upload] using hit
  · obtain ⟨ht, hp, hs, hf, hits⟩ := runDelete_all_fail
      (create_bulk_delete_operation del_id user invoice_ids).items devents
      (create_bulk_delete_operation del_id user invoice_ids).progress
      (by rw [hlen_d, hitems_d]) hfail_d
    have hz : (create_bulk_delete_operation del_id user invoice_ids).progress.failed = 0 := rfl
    have hzs : (create_bulk_delete_operation del_id user invoice_ids).progress.successful = 0 := rfl
    have hzt : (create_bulk_delete_operation del_id user invoice_ids).progress.total
        = invoice_ids.length := rfl
    have hfail_pos : (runDelete
        (create_bulk_delete_operation del_id user invoice_ids).progress
        (create_bulk_delete_operation del_id user invoice_ids).items devents).1.failed ≠ 0 := by
      rw [hf, hz, hitems_d]
      omega
    refine ⟨?_, ?_, ?_, ?_, ?_⟩
    · simp [_execute_bulk_delete, hfail_pos]
    · simp [_execute_bulk_delete, hfail_pos, BulkOperationStatus.isTerminal]
    · simp [_execute_bulk_delete, hs, hzs]
    · simp [_execute_bulk_delete, hf, ht, hz, hzt, hitems_d]
    · intro it hit
      refine hits it ?_
      simpa [_execute_bulk_delete] using hit

/-- Witness for C3: concrete three-file upload run and two-invoice
delete run in which every collaborator interaction fails. -/
theorem all_failures_contained_witness :
    (["f1", "f2", "f3"] : List String) ≠ [] ∧
    uploadFailEventsEx.length = (["f1", "f2", "f3"] : List String).length ∧
    (∀ e ∈ uploadFailEventsEx, e.failsWithMsg) ∧
    (["i1", "i2"] : List String) ≠ [] ∧
    deleteFailEventsEx.length = (["i1", "i2"] : List String).length ∧
    (∀ e ∈ deleteFailEventsEx, e.fails) ∧
    (_execute_bulk_upload
      { create_bulk_upload_operation "w3u" "u1" ["f1", "f2", "f3"] with
          status := BulkOperationStatus.RUNNING } uploadFailEventsEx).1.status =
      BulkOperationStatus.PARTIAL ∧
    (_execute_bulk_delete
      { create_bulk_delete_operation "w3d" "u1" ["i1", "i2"] with
          status := BulkOperationStatus.RUNNING } deleteFailEventsEx).1.status =
      BulkOperationStatus.PARTIAL := by
  refine ⟨by decide, by decide, by decide, by decide, by decide, by decide, ?_, ?_⟩
  · exact (all_failures_contained "w3u" "w3d" "u1" ["f1", "f2", "f3"] ["i1", "i2"]
      uploadFailEventsEx deleteFailEventsEx (by decide) (by decide) (by decide)
      (by decide) (by decide) (by decide)).1.1
  · exact (all_failures_contained "w3u" "w3d" "u1" ["f1", "f2", "f3"] ["i1", "i2"]
      uploadFailEventsEx deleteFailEventsEx (by decide) (by decide) (by decide)
      (by decide) (by decide) (by decide)).2.1

/-- C6: after the authenticated endpoint setup for a user, the
connection id is registered under that user, it is subscribed to the
private topic of that user, and the only envelope sent during setup —
hence the first outbound message on the connection — is the
`connection_established` acknowledgement addressed to it. -/
theorem connect_registers_subscribes_acks (m : WebSocketManager)
    (user_id connection_id : String) :
    (findKey (websocket_endpoint_setup m user_id connection_id).1.connections
        connection_id).map WSConnection.user_id = some user_id ∧
    connection_id ∈ getKeyD
      (websocket_endpoint_setup m user_id connection_id).1.topic_subscriptions
      ("user:" ++ user_id) [] ∧
    (websocket_endpoint_setup m user_id connection_id).2 =
      [{ connection_id := connection_id, mtype := "connection_established",
         message := "WebSocket connection established" }] := by
  simp [websocket_endpoint_setup, WebSocketManager.connect,
    WebSocketManager.subscribe_to_topic, WebSocketManager.send_to_connection,
    findKey_setKey_self, getKeyD, mem_addIfAbsent]

/-- C9: a live-channel payload that fails JSON parsing elicits exactly
one `error` envelope back on the same connection, and the handler drops
nothing: the connection registry, user index and topic subscriptions
are unchanged and the connection stays registered. -/
theorem malformed_payload_error_envelope_no_drop (m : WebSocketManager)
    (connection_id raw : String) (conn : WSConnection)
    (h : findKey m.connections connection_id = some conn) :
    (m.handle_message connection_id (InboundMessage.malformed raw)).2 =
      [{ connection_id := connection_id, mtype := "error",
         message := "Invalid JSON message" }] ∧
    (m.handle_message connection_id (InboundMessage.malformed raw)).1.connections
      = m.connections ∧
    (m.handle_message connection_id (InboundMessage.malformed raw)).1.user_connections
      = m.user_connections ∧
    (m.handle_message connection_id (InboundMessage.malformed raw)).1.topic_subscriptions
      = m.topic_subscriptions ∧
    findKey (m.handle_message connection_id
        (InboundMessage.malformed raw)).1.connections connection_id = some conn := by
  simp [WebSocketManager.handle_message, WebSocketManager.send_to_connection, h]

/-- Witness for C9 on a concrete one-connection hub. -/
theorem malformed_payload_error_envelope_no_drop_witness :
    findKey wsEx.connections "c1" = some wsConnEx ∧
    ((wsEx.handle_message "c1" (InboundMessage.malformed "not json")).2 =
      [{ connection_id := "c1", mtype := "error",
         message := "Invalid JSON message" }] ∧
     (wsEx.handle_message "c1" (InboundMessage.malformed "not json")).1.connections
       = wsEx.connections ∧
     (wsEx.handle_message "c1" (InboundMessage.malformed "not json")).1.user_connections
       = wsEx.user_connections ∧
     (wsEx.handle_message "c1" (InboundMessage.malformed "not json")).1.topic_subscriptions
       = wsEx.topic_subscriptions ∧
     findKey (wsEx.handle_message "c1"
         (InboundMessage.malformed "not json")).1.connections "c1" = some wsConnEx) := by
  refine ⟨by decide, ?_⟩
  exact malformed_payload_error_envelope_no_drop wsEx "c1" "not json" wsConnEx (by decide)

/-- C7: disconnecting a registered connection (in a state whose user
index is consistent: the id appears only under the owning user) removes
its id from the registry, from every topic's subscriber set, and from
the user index — no dangling subscriber ids; and disconnecting an
unknown or already-removed id is a no-op. -/
theorem disconnect_removes_everywhere_and_noop (m : WebSocketManager)
    (connection_id : String) :
    (∀ conn, findKey m.connections connection_id = some conn →
      (∀ u l, (u, l) ∈ m.user_connections → connection_id ∈ l → u = conn.user_id) →
      (findKey (m.disconnect connection_id).connections connection_id = none ∧
       (∀ t, connection_id ∉
          (findKey (m.disconnect connection_id).topic_subscriptions t).getD []) ∧
       (∀ u, connection_id ∉
          (findKey (m.disconnect connection_id).user_connections u).getD []))) ∧
    (findKey m.connections connection_id = none →
      m.disconnect connection_id = m) := by
  constructor
  · intro conn h hwf
    refine ⟨?_, ?_, ?_⟩
    · simp only [WebSocketManager.disconnect, h]
      exact findKey_eraseKey_self m.connections connection_id
    · intro t
      simp only [WebSocketManager.disconnect, h]
      rw [findKey_map_val]
      cases hft : findKey m.topic_subscriptions t with
      | none => simp
      | some subs =>
        exact not_mem_filter_bne subs connection_id
    · intro u
      simp only [WebSocketManager.disconnect, h]
      cases hu : findKey m.user_connections conn.user_id with
      | none =>
        simp only []
        cases hfu : findKey m.user_connections u with
        | none => simp [hfu]
        | some l =>
          simp only [hfu, Option.getD_some]
          intro hc
          have huid : u = conn.user_id := hwf u l (findKey_eq_some_mem hfu) hc
          rw [huid] at hfu
          rw [hu] at hfu
          exact Option.noConfusion hfu
      | some l0 =>
        by_cases hl : l0.filter (fun c => c != connection_id) = []
        · simp only [hl, if_pos]
          by_cases huq : u = conn.user_id
          · rw [huq, findKey_eraseKey_self]
            simp
          · rw [findKey_eraseKey_ne _ _ _ huq]
            cases hfu : findKey m.user_connections u with
            | none => simp
            | some l =>
              simp only [Option.getD_some]
              intro hc
              exact huq (hwf u l (findKey_eq_some_mem hfu) hc)
        · simp only [hl, if_neg, ite_false]
          by_cases huq : u = conn.user_id
          · rw [huq, findKey_setKey_self]
            simp only [Option.getD_some]
            exact not_mem_filter_bne l0 connection_id
          · rw [findKey_setKey_ne _ _ _ _ huq]
            cases hfu : findKey m.user_connections u with
            | none => simp
            | some l =>
              simp only [Option.getD_some]
              intro hc
              exact huq (hwf u l (findKey_eq_some_mem hfu) hc)
  · intro h
    simp [WebSocketManager.disconnect, h]

/-- Witness for C7 on a concrete one-connection hub (registered id
`c1`, unknown id `c9`). -/
theorem disconnect_removes_everywhere_and_noop_witness :
    findKey wsEx.connections "c1" = some wsConnEx ∧
    (findKey (wsEx.disconnect "c1").connections "c1" = none ∧
     (∀ t, "c1" ∉ (findKey (wsEx.disconnect "c1").topic_subscriptions t).getD []) ∧
     (∀ u, "c1" ∉ (findKey (wsEx.disconnect "c1").user_connections u).getD [])) ∧
    (findKey wsEx.connections "c9" = none ∧ wsEx.disconnect "c9" = wsEx) := by
  have h1 : findKey wsEx.connections "c1" = some wsConnEx := by decide
  have huc : wsEx.user_connections = [("u9", ["c1"])] := by decide
  have hwf : ∀ u l, (u, l) ∈ wsEx.user_connections → "c1" ∈ l → u = wsConnEx.user_id := by
    intro u l hl _
    rw [huc] at hl
    simp only [List.mem_singleton, Prod.mk.injEq] at hl
    exact hl.1
  have h9 : findKey wsEx.connections "c9" = none := by decide
  exact ⟨h1, (disconnect_removes_everywhere_and_noop wsEx "c1").1 wsConnEx h1 hwf,
    h9, (disconnect_removes_everywhere_and_noop wsEx "c9").2 h9⟩
